import Mathlib

/-!
Verification of the iPick-Server live-tracking engine (src/src/SSEManager.ts and
the POST /location ingestion handlers) against its natural-language specification.

The engine is embedded shallowly:

* A JavaScript `Map` is an insertion-ordered association list `List (κ × α)`;
  `Map.set` overwrites in place (keeping the original position of an existing
  key) and appends new keys, `Map.get` returns the first (unique) binding,
  `Map.delete` removes the binding.  Reachable maps have pairwise distinct
  keys (`Nodup` on the key projection), which we carry as an explicit
  well-formedness hypothesis where a proof needs it.
* GPS coordinates (JS numbers) are modelled as rationals: every claim in scope
  only tests them for presence and for equality with 0; no float arithmetic
  occurs in the verified paths.  Timestamps (`Date.now()`) are integers.
* A `Readable` SSE stream is a `Sink`: a `destroyed` flag, a flag saying
  whether `push` throws for this sink, and the list of payloads pushed so far.
* `JSON.stringify` is abstracted by a concrete serializer; the claims about
  broadcasting depend only on the payload being computed once per publish pass
  from the snapshot, never on the exact JSON formatting.
-/

namespace IPick

/-- First binding of `k`, as JS `Map.prototype.get`. -/
def mapGet {κ α : Type} [DecidableEq κ] (k : κ) : List (κ × α) → Option α
  | [] => none
  | (k', v') :: rest => if k' = k then some v' else mapGet k rest

/-- JS `Map.prototype.set`: overwrite in place, else append at the end. -/
def mapSet {κ α : Type} [DecidableEq κ] (k : κ) (v : α) : List (κ × α) → List (κ × α)
  | [] => [(k, v)]
  | (k', v') :: rest => if k' = k then (k, v) :: rest else (k', v') :: mapSet k v rest

/-- JS `Map.prototype.delete`: remove the (unique) binding of `k`. -/
def mapDel {κ α : Type} [DecidableEq κ] (k : κ) : List (κ × α) → List (κ × α)
  | [] => []
  | (k', v') :: rest => if k' = k then rest else (k', v') :: mapDel k rest

/-- `Array.from(map.values())`, in insertion order. -/
def mapValues {κ α : Type} (m : List (κ × α)) : List α := m.map Prod.snd

/-- The keys of the map, in insertion order. -/
def mapKeys {κ α : Type} (m : List (κ × α)) : List κ := m.map Prod.fst

/-- `interface LocationData` of src/src/SSEManager.ts (lines 97-112). -/
structure LocationData where
  device_id : String
  latitude : ℚ
  longitude : ℚ
  body_number : String
  device_name : String
  timestamp : ℤ
  altitude : Option ℚ := none
  speed : Option ℚ := none
  course : Option ℚ := none
  satellites : Option ℚ := none
  hdop : Option ℚ := none
  gps_time : Option String := none
  gps_date : Option String := none
deriving DecidableEq, Repr

/-- One subscriber stream (`Readable`): whether it was destroyed, whether its
`push` throws (modelling a broken transport), and the payloads pushed so far. -/
structure Sink where
  destroyed : Bool
  pushFails : Bool
  buffer : List String
deriving DecidableEq, Repr

/-- The mutable state of one `SSEManager` instance: the subscriber map
(`clients`, Symbol keys modelled as `ℕ`) and the live location cache
(`locations`, keyed by device id). -/
structure SSEState where
  clients : List (ℕ × Sink)
  locations : List (String × LocationData)
deriving DecidableEq, Repr

/-- `const staleTimeout = 10000` (src/src/SSEManager.ts line 20); the
part_001 variant uses 30000 — the reaper below is parameterized by it. -/
def staleTimeout : ℤ := 10000

/-- `cleanupStaleLocations` (src/src/SSEManager.ts lines 18-28): delete every
entry with `now - data.timestamp > staleTimeout`.  Deleting the entry under
iteration from a JS `Map` is safe and the loop is exactly a filter. -/
def cleanupStaleLocations (now timeoutMs : ℤ) (locs : List (String × LocationData)) :
    List (String × LocationData) :=
  locs.filter (fun e => !decide (now - e.2.timestamp > timeoutMs))

/-- One tick of the 10-second cleanup timer installed in the constructor. -/
def reaperPass (now : ℤ) (st : SSEState) : SSEState :=
  { st with locations := cleanupStaleLocations now staleTimeout st.locations }

/-- Outcome of one flush cycle. -/
inductive FlushResult
  | skipped
  | ok
  | failed
deriving DecidableEq, Repr

/-- `logLocationsToDB` (src/src/SSEManager.ts lines 30-39): snapshot the cache
values; if non-empty, `insertMany` them into the durable sink inside
`try/catch` — a throwing sink (`sinkFails`) is caught and logged, nothing is
retried.  Returns the (unchanged) manager state, the new durable contents and
the outcome. -/
def logLocationsToDB (sinkFails : Bool) (st : SSEState) (db : List LocationData) :
    SSEState × List LocationData × FlushResult :=
  let locationDataArray := mapValues st.locations
  if locationDataArray.length > 0 then
    if sinkFails then (st, db, FlushResult.failed)
    else (st, db ++ locationDataArray, FlushResult.ok)
  else (st, db, FlushResult.skipped)

/-- Serialization of one optional telemetry number (absent fields are omitted
by `JSON.stringify`; the exact text is irrelevant to every claim). -/
def optNumText : Option ℚ → String
  | none => ""
  | some q => toString q

/-- Serialization of one optional telemetry string. -/
def optStrText : Option String → String
  | none => ""
  | some s => s

/-- Serialization of one `LocationData` record (abstracts `JSON.stringify`). -/
def serializeLocation (l : LocationData) : String :=
  String.intercalate ","
    [l.device_id, toString l.latitude, toString l.longitude, l.body_number,
     l.device_name, toString l.timestamp, optNumText l.altitude, optNumText l.speed,
     optNumText l.course, optNumText l.satellites, optNumText l.hdop,
     optStrText l.gps_time, optStrText l.gps_date]

/-- The SSE frame built once per broadcast pass
(src/src/SSEManager.ts line 70): the serialized snapshot array. -/
def broadcastMessage (locs : List (String × LocationData)) : String :=
  "data: [" ++ String.intercalate ";" ((mapValues locs).map serializeLocation) ++ "]\n\n"

/-- The body of the `for` loop of `broadcastLocations` for one client
(src/src/SSEManager.ts lines 72-83): a non-destroyed sink whose `push`
succeeds receives the message; a destroyed sink, or one whose `push` throws
(the `catch` branch), is removed via `removeClient`. -/
def pushToClient (message : String) : ℕ × Sink → Option (ℕ × Sink)
  | (cid, s) =>
    if !s.destroyed then
      if s.pushFails then none
      else some (cid, { s with buffer := s.buffer ++ [message] })
    else none

/-- `broadcastLocations` (src/src/SSEManager.ts lines 68-84). -/
def broadcastLocations (st : SSEState) : SSEState :=
  { st with clients := st.clients.filterMap (pushToClient (broadcastMessage st.locations)) }

/-- `updateLocation` (src/src/SSEManager.ts lines 63-66): unconditional
`Map.set` on the device id, then broadcast. -/
def updateLocation (locationData : LocationData) (st : SSEState) : SSEState :=
  broadcastLocations
    { st with locations := mapSet locationData.device_id locationData st.locations }

/-- `addClient` (src/src/SSEManager.ts lines 41-52), subscriber-set effect. -/
def addClient (clientId : ℕ) (s : Sink) (st : SSEState) : SSEState :=
  { st with clients := mapSet clientId s st.clients }

/-- `removeClient` (src/src/SSEManager.ts lines 54-61): only if the client is
still present is its stream destroyed and the binding deleted. -/
def removeClient (clientId : ℕ) (st : SSEState) : SSEState :=
  match mapGet clientId st.clients with
  | some _ => { st with clients := mapDel clientId st.clients }
  | none => st

/-- Response of the POST /location handlers: the validation error
`\x7b error: "Missing GPS data" \x7d` or the success acknowledgment. -/
inductive LocationResponse
  | missingGPS
  | success
deriving DecidableEq, Repr

/-- Raw body of the flat-shape POST /location handler (part_000 lines
242-269); `device_id`, `latitude`, `longitude` are `Option` to express the
handler-level absence that the guard `!device_id || !latitude || !longitude`
tests for. -/
structure FlatBody where
  device_id : Option String
  latitude : Option ℚ
  longitude : Option ℚ
  device_name : String
  body_number : String
deriving DecidableEq, Repr

/-- Flat-shape POST /location handler (part_000 lines 242-269).  The JS guard
`!device_id || !latitude || !longitude` rejects an absent field, an empty
device id, and a zero coordinate (JS falsiness); otherwise the canonical
record is built with `timestamp: Date.now()` and passed to
`sseManager.updateLocation`. -/
def postLocationFlat (body : FlatBody) (now : ℤ) (st : SSEState) :
    LocationResponse × SSEState :=
  match body.device_id, body.latitude, body.longitude with
  | some d, some lat, some lon =>
    if d = "" ∨ lat = 0 ∨ lon = 0 then (LocationResponse.missingGPS, st)
    else
      (LocationResponse.success,
       updateLocation
         { device_id := d, latitude := lat, longitude := lon,
           body_number := body.body_number, device_name := body.device_name,
           timestamp := now } st)
  | _, _, _ => (LocationResponse.missingGPS, st)

/-- `device_info` of the nested POST /location body (part_002 lines 122-127). -/
structure DeviceInfo where
  device_id : String
  body_number : String
  device_name : String
deriving DecidableEq, Repr

/-- `gps_data` of the nested POST /location body (part_002 lines 128-138). -/
structure GpsData where
  latitude : Option ℚ
  longitude : Option ℚ
  altitude : Option ℚ := none
  speed : Option ℚ := none
  course : Option ℚ := none
  satellites : Option ℚ := none
  hdop : Option ℚ := none
  date : Option String := none
  time : Option String := none
deriving DecidableEq, Repr

/-- Raw body of the nested-shape POST /location handler (part_002). -/
structure NestedBody where
  device_info : Option DeviceInfo
  gps_data : Option GpsData
deriving DecidableEq, Repr

/-- Nested-shape POST /location handler (part_002 lines 91-140).  The guard
`!device_info || !gps_data || !gps_data.latitude || !gps_data.longitude`
rejects an absent object, an absent coordinate, and a zero coordinate;
otherwise the canonical record carries the optional telemetry through. -/
def postLocationNested (body : NestedBody) (now : ℤ) (st : SSEState) :
    LocationResponse × SSEState :=
  match body.device_info, body.gps_data with
  | some info, some gps =>
    match gps.latitude, gps.longitude with
    | some lat, some lon =>
      if lat = 0 ∨ lon = 0 then (LocationResponse.missingGPS, st)
      else
        (LocationResponse.success,
         updateLocation
           { device_id := info.device_id, latitude := lat, longitude := lon,
             body_number := info.body_number, device_name := info.device_name,
             timestamp := now, altitude := gps.altitude, speed := gps.speed,
             course := gps.course, satellites := gps.satellites, hdop := gps.hdop,
             gps_time := gps.time, gps_date := gps.date } st)
    | _, _ => (LocationResponse.missingGPS, st)
  | _, _ => (LocationResponse.missingGPS, st)

/-- Well-formedness of a reachable location cache: device-id keys are
pairwise distinct and every binding's key is its record's `device_id`. -/
def LocsWF (locs : List (String × LocationData)) : Prop :=
  (mapKeys locs).Nodup ∧ ∀ e ∈ locs, e.1 = e.2.device_id

instance (locs : List (String × LocationData)) : Decidable (LocsWF locs) := by
  unfold LocsWF; infer_instance

/-! ### Concrete values used by witnesses and counterexamples -/

/-- The rational 14.5 (= 29/2) in normal form, so that kernel evaluation can
compute with it. -/
def lat14p5 : ℚ := { num := 29, den := 2, den_nz := by decide, reduced := by decide }

/-- The spec's example report: device `"bus-12"` at `lat 14.5, lon 121.0`, `t = 0`. -/
def exLoc : LocationData :=
  { device_id := "bus-12", latitude := lat14p5, longitude := 121,
    body_number := "b-12", device_name := "tracker", timestamp := 0 }

/-- A state holding exactly the `"bus-12"` report and no subscribers. -/
def exState : SSEState := { clients := [], locations := [("bus-12", exLoc)] }

/-- A healthy subscriber stream. -/
def exSink : Sink := { destroyed := false, pushFails := false, buffer := [] }

/-- A destroyed subscriber stream. -/
def exSinkDestroyed : Sink := { destroyed := true, pushFails := false, buffer := [] }

/-- A subscriber stream whose `push` throws. -/
def exSinkBroken : Sink := { destroyed := false, pushFails := true, buffer := [] }

/-- A state with one healthy subscriber, one destroyed stream and one stream
whose `push` throws, plus the `"bus-12"` report. -/
def exStateClients : SSEState :=
  { clients := [(0, exSink), (1, exSinkDestroyed), (2, exSinkBroken)],
    locations := [("bus-12", exLoc)] }

/-- A report for `"bus-12"` with `received_at` 1 (the earlier one). -/
def exR1 : LocationData :=
  { device_id := "bus-12", latitude := 1, longitude := 2,
    body_number := "b-12", device_name := "tracker", timestamp := 1 }

/-- A report for `"bus-12"` with `received_at` 2 (the later one). -/
def exR2 : LocationData :=
  { device_id := "bus-12", latitude := 3, longitude := 4,
    body_number := "b-12", device_name := "tracker", timestamp := 2 }

/-- A manager state with no subscribers and an empty cache. -/
def emptyState : SSEState := { clients := [], locations := [] }

/-! ### Generic lemmas about the JS `Map` embedding -/

theorem mapGet_mapSet_self {κ α : Type} [DecidableEq κ] (k : κ) (v : α)
    (m : List (κ × α)) : mapGet k (mapSet k v m) = some v := by
  induction m with
  | nil => simp [mapGet, mapSet]
  | cons e rest ih =>
    obtain ⟨k', v'⟩ := e
    by_cases h : k' = k <;> simp [mapGet, mapSet, h, ih]

theorem mem_mapKeys_mapSet {κ α : Type} [DecidableEq κ] (k j : κ) (v : α)
    (m : List (κ × α)) (hj : j ∈ mapKeys (mapSet k v m)) : j = k ∨ j ∈ mapKeys m := by
  induction m with
  | nil => simpa [mapKeys, mapSet] using hj
  | cons e rest ih =>
    obtain ⟨k', v'⟩ := e
    by_cases h : k' = k
    · subst h
      simpa [mapKeys, mapSet] using hj
    · simp only [mapKeys, mapSet, if_neg h, List.map_cons, List.mem_cons] at hj ⊢
      rcases hj with hj | hj
      · exact Or.inr (Or.inl hj)
      · rcases ih hj with hj | hj
        · exact Or.inl hj
        · exact Or.inr (Or.inr hj)

theorem nodup_mapKeys_mapSet {κ α : Type} [DecidableEq κ] (k : κ) (v : α)
    (m : List (κ × α)) (hm : (mapKeys m).Nodup) : (mapKeys (mapSet k v m)).Nodup := by
  induction m with
  | nil => simp [mapKeys, mapSet]
  | cons e rest ih =>
    obtain ⟨k', v'⟩ := e
    simp only [mapKeys, List.map_cons, List.nodup_cons] at hm
    by_cases h : k' = k
    · subst h
      simpa [mapKeys, mapSet] using hm
    · simp only [mapSet, if_neg h, mapKeys, List.map_cons, List.nodup_cons]
      refine ⟨fun hmem => ?_, ih hm.2⟩
      rcases mem_mapKeys_mapSet k k' v rest hmem with hk | hk
      · exact h hk
      · exact hm.1 hk

theorem mapGet_eq_none_of_not_mem {κ α : Type} [DecidableEq κ] (k : κ)
    (m : List (κ × α)) (h : k ∉ mapKeys m) : mapGet k m = none := by
  induction m with
  | nil => rfl
  | cons e rest ih =>
    obtain ⟨k', v'⟩ := e
    simp only [mapKeys, List.map_cons, List.mem_cons, not_or] at h
    have hne : ¬ k' = k := fun hk => h.1 hk.symm
    simp [mapGet, hne, ih h.2]

theorem mapGet_mapDel_self {κ α : Type} [DecidableEq κ] (k : κ)
    (m : List (κ × α)) (hm : (mapKeys m).Nodup) : mapGet k (mapDel k m) = none := by
  induction m with
  | nil => rfl
  | cons e rest ih =>
    obtain ⟨k', v'⟩ := e
    simp only [mapKeys, List.map_cons, List.nodup_cons] at hm
    by_cases h : k' = k
    · subst h
      simpa [mapDel] using mapGet_eq_none_of_not_mem k' rest hm.1
    · simp [mapDel, h, mapGet, ih hm.2]

theorem mem_mapSet {κ α : Type} [DecidableEq κ] (k : κ) (v : α) (m : List (κ × α))
    (e : κ × α) (he : e ∈ mapSet k v m) : e = (k, v) ∨ e ∈ m := by
  induction m with
  | nil => simpa [mapSet] using he
  | cons e' rest ih =>
    obtain ⟨k', v'⟩ := e'
    by_cases h : k' = k
    · subst h
      rcases (by simpa [mapSet] using he : e = (k', v) ∨ e ∈ rest) with he | he
      · exact Or.inl he
      · exact Or.inr (List.mem_cons_of_mem _ he)
    · rcases (by simpa [mapSet, h] using he : e = (k', v') ∨ e ∈ mapSet k v rest) with he | he
      · exact Or.inr (he ▸ List.mem_cons_self _ _)
      · rcases ih he with he | he
        · exact Or.inl he
        · exact Or.inr (List.mem_cons_of_mem _ he)

/-! ### Lemmas about the stale-entry reaper -/

theorem mem_mapKeys_cleanup (now timeoutMs : ℤ) (j : String)
    (locs : List (String × LocationData))
    (hj : j ∈ mapKeys (cleanupStaleLocations now timeoutMs locs)) : j ∈ mapKeys locs := by
  simp only [mapKeys, cleanupStaleLocations, List.mem_map] at hj ⊢
  obtain ⟨e, he, hfst⟩ := hj
  exact ⟨e, (List.mem_filter.mp he).1, hfst⟩

theorem mapGet_cleanup_of_fresh (now timeoutMs : ℤ) (D : String) (d : LocationData)
    (locs : List (String × LocationData)) (hget : mapGet D locs = some d)
    (hfresh : ¬ now - d.timestamp > timeoutMs) :
    mapGet D (cleanupStaleLocations now timeoutMs locs) = some d := by
  induction locs with
  | nil => simp [mapGet] at hget
  | cons e rest ih =>
    obtain ⟨k', v'⟩ := e
    by_cases h : k' = D
    · subst h
      have hv : v' = d := by simpa [mapGet] using hget
      subst hv
      simp [cleanupStaleLocations, mapGet, hfresh]
    · have hget' : mapGet D rest = some d := by simpa [mapGet, h] using hget
      by_cases hkeep : now - v'.timestamp > timeoutMs
      · simpa [cleanupStaleLocations, hkeep] using ih hget'
      · simpa [cleanupStaleLocations, hkeep, mapGet, h] using ih hget'

theorem mapGet_cleanup_of_stale (now timeoutMs : ℤ) (D : String) (d : LocationData)
    (locs : List (String × LocationData)) (hnd : (mapKeys locs).Nodup)
    (hget : mapGet D locs = some d) (hstale : now - d.timestamp > timeoutMs) :
    mapGet D (cleanupStaleLocations now timeoutMs locs) = none := by
  induction locs with
  | nil => simp [mapGet] at hget
  | cons e rest ih =>
    obtain ⟨k', v'⟩ := e
    simp only [mapKeys, List.map_cons, List.nodup_cons] at hnd
    by_cases h : k' = D
    · subst h
      have hv : v' = d := by simpa [mapGet] using hget
      subst hv
      have hnone : mapGet k' (cleanupStaleLocations now timeoutMs rest) = none := by
        refine mapGet_eq_none_of_not_mem _ _ fun hmem => ?_
        exact hnd.1 (mem_mapKeys_cleanup now timeoutMs k' rest hmem)
      simpa [cleanupStaleLocations, hstale] using hnone
    · have hget' : mapGet D rest = some d := by simpa [mapGet, h] using hget
      by_cases hkeep : now - v'.timestamp > timeoutMs
      · simpa [cleanupStaleLocations, hkeep] using ih hnd.2 hget'
      · simpa [cleanupStaleLocations, hkeep, mapGet, h] using ih hnd.2 hget'

/-! ### Lemmas relating `mapGet` and the snapshot (`mapValues`) -/

theorem mapValues_filter_of_not_mem (k : String) (locs : List (String × LocationData))
    (hkeys : ∀ e ∈ locs, e.1 = e.2.device_id) (hnot : k ∉ mapKeys locs) :
    (mapValues locs).filter (fun l => decide (l.device_id = k)) = [] := by
  induction locs with
  | nil => rfl
  | cons e rest ih =>
    obtain ⟨k', v'⟩ := e
    simp only [mapKeys, List.map_cons, List.mem_cons, not_or] at hnot
    have hk' : v'.device_id = k' := (hkeys (k', v') (List.mem_cons_self _ _)).symm
    have hne : ¬ v'.device_id = k := by rw [hk']; exact fun hk => hnot.1 hk.symm
    have ihr := ih (fun e he => hkeys e (List.mem_cons_of_mem _ he)) hnot.2
    simpa [mapValues, List.filter, hne] using ihr

theorem mapValues_filter_of_get (k : String) (v : LocationData)
    (locs : List (String × LocationData)) (hwf : LocsWF locs)
    (hget : mapGet k locs = some v) :
    (mapValues locs).filter (fun l => decide (l.device_id = k)) = [v] := by
  induction locs with
  | nil => simp [mapGet] at hget
  | cons e rest ih =>
    obtain ⟨k', v'⟩ := e
    obtain ⟨hnd, hkeys⟩ := hwf
    simp only [mapKeys, List.map_cons, List.nodup_cons] at hnd
    have hk' : v'.device_id = k' := (hkeys (k', v') (List.mem_cons_self _ _)).symm
    have hkeysr : ∀ e ∈ rest, e.1 = e.2.device_id :=
      fun e he => hkeys e (List.mem_cons_of_mem _ he)
    by_cases h : k' = k
    · subst h
      have hv : v' = v := by simpa [mapGet] using hget
      subst hv
      have hrest := mapValues_filter_of_not_mem k' rest hkeysr hnd.1
      simpa [mapValues, List.filter, hk'] using hrest
    · have hget' : mapGet k rest = some v := by simpa [mapGet, h] using hget
      have hne : ¬ v'.device_id = k := by rw [hk']; exact h
      have ihr := ih ⟨hnd.2, hkeysr⟩ hget'
      simpa [mapValues, List.filter, hne] using ihr

theorem locsWF_mapSet (l : LocationData) (locs : List (String × LocationData))
    (hwf : LocsWF locs) : LocsWF (mapSet l.device_id l locs) := by
  refine ⟨nodup_mapKeys_mapSet _ _ _ hwf.1, fun e he => ?_⟩
  rcases mem_mapSet _ _ _ _ he with he | he
  · subst he; rfl
  · exact hwf.2 e he

theorem not_mem_of_mapGet_eq_none {κ α : Type} [DecidableEq κ] (k : κ)
    (m : List (κ × α)) (h : mapGet k m = none) : k ∉ mapKeys m := by
  induction m with
  | nil => simp [mapKeys]
  | cons e rest ih =>
    obtain ⟨k', v'⟩ := e
    by_cases hk : k' = k
    · simp [mapGet, hk] at h
    · have h' : mapGet k rest = none := by simpa [mapGet, hk] using h
      simp only [mapKeys, List.map_cons, List.mem_cons, not_or]
      exact ⟨fun he => hk he.symm, ih h'⟩

theorem mem_mapKeys_of_mem {κ α : Type} (k : κ) (a : α) (m : List (κ × α))
    (h : (k, a) ∈ m) : k ∈ mapKeys m :=
  List.mem_map.mpr ⟨(k, a), h, rfl⟩

theorem mem_unique_of_nodup_keys {κ α : Type} (k : κ) (a b : α) (m : List (κ × α))
    (hnd : (mapKeys m).Nodup) (ha : (k, a) ∈ m) (hb : (k, b) ∈ m) : a = b := by
  induction m with
  | nil => simp at ha
  | cons e rest ih =>
    simp only [mapKeys, List.map_cons, List.nodup_cons] at hnd
    rcases List.mem_cons.mp ha with ha' | ha' <;> rcases List.mem_cons.mp hb with hb' | hb'
    · exact congrArg Prod.snd (ha'.trans hb'.symm)
    · exact absurd (ha' ▸ mem_mapKeys_of_mem k b rest hb') hnd.1
    · exact absurd (hb' ▸ mem_mapKeys_of_mem k a rest ha') hnd.1
    · exact ih hnd.2 ha' hb'

/-- Characterization of one successful iteration of the broadcast loop. -/
theorem pushToClient_eq_some (message : String) (c : ℕ) (s : Sink) (e : ℕ × Sink)
    (h : pushToClient message (c, s) = some e) :
    s.destroyed = false ∧ s.pushFails = false ∧
    e = (c, { s with buffer := s.buffer ++ [message] }) := by
  unfold pushToClient at h
  cases hd : s.destroyed <;> cases hp : s.pushFails <;>
    simp [hd, hp] at h <;> simp [h]

/-! ### Claim theorems -/

/-- C7: `detach` (`removeClient`) is idempotent — calling it a second time on
the same subscription id succeeds without error and leaves the subscriber set
in the same state as calling it once. -/
theorem removeClient_idempotent (clientId : ℕ) (st : SSEState)
    (hwf : (mapKeys st.clients).Nodup) :
    removeClient clientId (removeClient clientId st) = removeClient clientId st := by
  unfold removeClient
  cases hget : mapGet clientId st.clients with
  | none => simp [hget]
  | some s =>
    have h2 : mapGet clientId (mapDel clientId st.clients) = none :=
      mapGet_mapDel_self clientId st.clients hwf
    simp [hget, h2]

/-- Witness for C7 at a concrete three-subscriber state. -/
theorem removeClient_idempotent_witness :
    removeClient 0 (removeClient 0 exStateClients) = removeClient 0 exStateClients :=
  removeClient_idempotent 0 exStateClients (by decide)

/-- C8: a reaper pass and a flusher pass leave the subscriber set exactly as
it was; membership is never mutated by the background timers. -/
theorem background_timers_preserve_subscribers (now : ℤ) (sinkFails : Bool)
    (st : SSEState) (db : List LocationData) :
    (reaperPass now st).clients = st.clients ∧
    (logLocationsToDB sinkFails st db).1.clients = st.clients := by
  refine ⟨rfl, ?_⟩
  unfold logLocationsToDB
  by_cases h : (mapValues st.locations).length > 0 <;> cases sinkFails <;> simp [h]

/-- C5: a durable-sink failure is absorbed at the flusher boundary — the
cache is unchanged by any flush, a failed batch is dropped (not retried), and
the next cycle flushes the then-current snapshot successfully. -/
theorem flusher_failure_contained (sinkFails : Bool) (st st2 : SSEState)
    (db : List LocationData) (hne : mapValues st2.locations ≠ []) :
    (logLocationsToDB sinkFails st db).1 = st ∧
    (logLocationsToDB true st db).2.1 = db ∧
    logLocationsToDB false st2 (logLocationsToDB true st db).2.1 =
      (st2, db ++ mapValues st2.locations, FlushResult.ok) := by
  have hlen : (mapValues st2.locations).length > 0 := List.length_pos.mpr hne
  have hdrop : (logLocationsToDB true st db).2.1 = db := by
    unfold logLocationsToDB
    by_cases h : (mapValues st.locations).length > 0 <;> simp [h]
  refine ⟨?_, hdrop, ?_⟩
  · unfold logLocationsToDB
    by_cases h : (mapValues st.locations).length > 0 <;> cases sinkFails <;> simp [h]
  · rw [hdrop]
    unfold logLocationsToDB
    simp [hlen]

/-- Witness for C5: a failing flush over the `"bus-12"` state followed by a
successful one. -/
theorem flusher_failure_contained_witness :
    (logLocationsToDB true exState []).1 = exState ∧
    (logLocationsToDB true exState []).2.1 = [] ∧
    logLocationsToDB false exState (logLocationsToDB true exState []).2.1 =
      (exState, [] ++ mapValues exState.locations, FlushResult.ok) :=
  flusher_failure_contained true exState exState [] (by decide)

/-- C2: a report with `device_id`, `latitude` or `longitude` absent is
answered with the "Missing GPS data" validation error and the state (cache
included) is unchanged; a second rejection of the same input yields the same
error kind. -/
theorem missing_gps_field_rejected (body : FlatBody) (now now2 : ℤ) (st : SSEState)
    (habs : body.device_id = none ∨ body.latitude = none ∨ body.longitude = none) :
    postLocationFlat body now st = (LocationResponse.missingGPS, st) ∧
    postLocationFlat body now2 st = (LocationResponse.missingGPS, st) := by
  obtain ⟨di, la, lo, dn, bn⟩ := body
  cases di <;> cases la <;> cases lo <;> simp_all [postLocationFlat]

/-- Witness for C2: a report without a device id is rejected twice, at two
different server times, with the same error. -/
theorem missing_gps_field_rejected_witness :
    postLocationFlat ⟨none, some lat14p5, some 121, "tracker", "b-12"⟩ 0 exState =
      (LocationResponse.missingGPS, exState) ∧
    postLocationFlat ⟨none, some lat14p5, some 121, "tracker", "b-12"⟩ 5 exState =
      (LocationResponse.missingGPS, exState) :=
  missing_gps_field_rejected _ 0 5 exState (Or.inl rfl)

/-- C9: a report whose latitude or longitude equals 0 is rejected with the
"Missing GPS data" error and the cache is unchanged — the guard
`!latitude || !longitude` tests JS truthiness, and `0` is falsy. -/
theorem zero_coordinate_rejected (body : FlatBody) (now : ℤ) (st : SSEState)
    (hzero : body.latitude = some 0 ∨ body.longitude = some 0) :
    postLocationFlat body now st = (LocationResponse.missingGPS, st) := by
  obtain ⟨di, la, lo, dn, bn⟩ := body
  cases di <;> cases la <;> cases lo <;> simp_all [postLocationFlat]

/-- Witness for C9: a report on the equator (`latitude = 0`) is rejected. -/
theorem zero_coordinate_rejected_witness :
    postLocationFlat ⟨some "bus-12", some 0, some 121, "tracker", "b-12"⟩ 0 exState =
      (LocationResponse.missingGPS, exState) :=
  zero_coordinate_rejected _ 0 exState (Or.inl rfl)

/-- Counterexample to C1 as stated: `upsert` never consults `received_at`,
so in the arrival order `upsert(r2); upsert(r1)` the cache ends up holding
`r1` — the report with the *earlier* `received_at` — not `r2`.  Last write by
wall-clock arrival order wins, not by cache-entry time. -/
theorem upsert_received_at_wins_counterexample :
    exR2.timestamp > exR1.timestamp ∧ exR1 ≠ exR2 ∧
    (updateLocation exR1 (updateLocation exR2 emptyState)).locations =
      [("bus-12", exR1)] := by decide

/-- C1 (amended): after `upsert(r1)` then `upsert(r2)` in that application
order, the snapshot contains exactly `r2` for the device — the cache is
last-write-wins by application order and never compares `received_at` (so in
the reversed arrival order `r1` would win, see the counterexample). -/
theorem upsert_last_write_wins (r1 r2 : LocationData) (D : String) (st : SSEState)
    (hD1 : r1.device_id = D) (hD2 : r2.device_id = D)
    (_hts : r2.timestamp > r1.timestamp) (hwf : LocsWF st.locations) :
    mapGet D (updateLocation r2 (updateLocation r1 st)).locations = some r2 ∧
    (mapValues (updateLocation r2 (updateLocation r1 st)).locations).filter
      (fun l => decide (l.device_id = D)) = [r2] := by
  subst hD2
  have hwf2 : LocsWF (mapSet r2.device_id r2 (mapSet r1.device_id r1 st.locations)) :=
    locsWF_mapSet r2 _ (locsWF_mapSet r1 _ hwf)
  have hget : mapGet r2.device_id
      (updateLocation r2 (updateLocation r1 st)).locations = some r2 :=
    mapGet_mapSet_self _ _ _
  exact ⟨hget, mapValues_filter_of_get _ _ _ hwf2 hget⟩

/-- Witness for C1 (amended): both reports for `"bus-12"` upserted in
increasing `received_at` order leave exactly the later one. -/
theorem upsert_last_write_wins_witness :
    mapGet "bus-12" (updateLocation exR2 (updateLocation exR1 emptyState)).locations =
      some exR2 ∧
    (mapValues (updateLocation exR2 (updateLocation exR1 emptyState)).locations).filter
      (fun l => decide (l.device_id = "bus-12")) = [exR2] :=
  upsert_last_write_wins exR1 exR2 "bus-12" emptyState (by decide) (by decide)
    (by decide) (by decide)

/-- C3: a cache entry whose age `now - received_at` strictly exceeds the
staleness threshold when the reaper runs is evicted — it is absent from the
snapshot (both by lookup and from the values the broadcast payload is built
from) until the device reports again. -/
theorem reaper_evicts_stale_entry (st : SSEState) (D : String) (d : LocationData)
    (now : ℤ) (hwf : LocsWF st.locations) (hget : mapGet D st.locations = some d)
    (hstale : now - d.timestamp > staleTimeout) :
    mapGet D (reaperPass now st).locations = none ∧
    (mapValues (reaperPass now st).locations).filter
      (fun l => decide (l.device_id = D)) = [] := by
  have hnone : mapGet D (reaperPass now st).locations = none :=
    mapGet_cleanup_of_stale now staleTimeout D d st.locations hwf.1 hget hstale
  refine ⟨hnone, mapValues_filter_of_not_mem D _ ?_ ?_⟩
  · intro e he
    exact hwf.2 e (List.mem_filter.mp he).1
  · exact not_mem_of_mapGet_eq_none D _ hnone

/-- Witness for C3, the spec's scenario: `"bus-12"` reported at `t = 0`,
threshold 10 s, reaper pass at `t = 11 s` — the device is gone. -/
theorem reaper_evicts_stale_entry_witness :
    mapGet "bus-12" (reaperPass 11000 exState).locations = none ∧
    (mapValues (reaperPass 11000 exState).locations).filter
      (fun l => decide (l.device_id = "bus-12")) = [] :=
  reaper_evicts_stale_entry exState "bus-12" exLoc 11000 (by decide) (by decide)
    (by decide)

/-- C10: the reaper's staleness test is strict — an entry whose age equals
the threshold exactly is kept, and an entry is evicted only when its age is
strictly greater than the threshold (equivalently: whenever the age is not
strictly greater, the entry survives the pass). -/
theorem reaper_strict_inequality (st : SSEState) (D : String) (d : LocationData)
    (now : ℤ) (hget : mapGet D st.locations = some d) :
    (now - d.timestamp = staleTimeout →
      mapGet D (reaperPass now st).locations = some d) ∧
    (¬ now - d.timestamp > staleTimeout →
      mapGet D (reaperPass now st).locations = some d) := by
  constructor
  · intro heq
    exact mapGet_cleanup_of_fresh now staleTimeout D d st.locations hget (by omega)
  · intro hle
    exact mapGet_cleanup_of_fresh now staleTimeout D d st.locations hget hle

/-- Witness for C10: `"bus-12"` reported at `t = 0` is still present after a
reaper pass at exactly `t = 10 s` (age = threshold). -/
theorem reaper_strict_inequality_witness :
    mapGet "bus-12" (reaperPass 10000 exState).locations = some exLoc :=
  (reaper_strict_inequality exState "bus-12" exLoc 10000 (by decide)).1 (by decide)

/-- C4: one publish pass computes the serialized snapshot once
(`broadcastMessage st.locations`) and appends that same payload to every live
attached sink; a sink that is destroyed or whose delivery throws is detached
during the same pass, and its failure does not prevent delivery to any other
sink (each live sink receives the payload regardless of the other sinks).
The pass leaves the location cache untouched. -/
theorem publish_isolates_subscriber_failures (st : SSEState) (cid : ℕ) (s : Sink)
    (hwf : (mapKeys st.clients).Nodup) (hmem : (cid, s) ∈ st.clients) :
    (s.destroyed = false → s.pushFails = false →
      (cid, { s with buffer := s.buffer ++ [broadcastMessage st.locations] }) ∈
        (broadcastLocations st).clients) ∧
    ((s.destroyed = true ∨ s.pushFails = true) →
      cid ∉ mapKeys (broadcastLocations st).clients) ∧
    (broadcastLocations st).locations = st.locations := by
  refine ⟨fun hd hp => ?_, fun hdead hmem' => ?_, rfl⟩
  · exact List.mem_filterMap.mpr ⟨(cid, s), hmem, by simp [pushToClient, hd, hp]⟩
  · obtain ⟨e, he, hfst⟩ := List.mem_map.mp hmem'
    obtain ⟨a, ha, hpush⟩ := List.mem_filterMap.mp he
    obtain ⟨c', s'⟩ := a
    obtain ⟨hd', hp', hee⟩ := pushToClient_eq_some _ c' s' e hpush
    have hc : c' = cid := by rw [hee] at hfst; exact hfst
    subst hc
    have hs : s' = s := mem_unique_of_nodup_keys c' s' s st.clients hwf ha hmem
    subst hs
    rcases hdead with hdead | hdead
    · rw [hd'] at hdead; exact Bool.false_ne_true hdead
    · rw [hp'] at hdead; exact Bool.false_ne_true hdead

/-- Witness for C4 over a three-sink state: the healthy sink receives the
payload while the destroyed and the throwing sinks are both detached by the
same pass. -/
theorem publish_isolates_subscriber_failures_witness :
    (0, { exSink with buffer := exSink.buffer ++ [broadcastMessage exStateClients.locations] }) ∈
      (broadcastLocations exStateClients).clients ∧
    1 ∉ mapKeys (broadcastLocations exStateClients).clients ∧
    2 ∉ mapKeys (broadcastLocations exStateClients).clients :=
  ⟨(publish_isolates_subscriber_failures exStateClients 0 exSink (by decide)
      (by decide)).1 rfl rfl,
   (publish_isolates_subscriber_failures exStateClients 1 exSinkDestroyed (by decide)
      (by decide)).2.1 (Or.inl rfl),
   (publish_isolates_subscriber_failures exStateClients 2 exSinkBroken (by decide)
      (by decide)).2.1 (Or.inr rfl)⟩

/-- C6: the flat-shape and nested-shape ingestion handlers accept equivalent
inputs and produce the same response and the same canonical record in the
cache (the nested handler's extra telemetry fields default to absent, as in
the flat handler). -/
theorem flat_and_nested_shapes_agree (d nm bn : String) (lat lon : ℚ) (now : ℤ)
    (st : SSEState) (hd : d ≠ "") (hlat : lat ≠ 0) (hlon : lon ≠ 0) :
    postLocationFlat
        { device_id := some d, latitude := some lat, longitude := some lon,
          device_name := nm, body_number := bn } now st =
      postLocationNested
        { device_info := some { device_id := d, body_number := bn, device_name := nm },
          gps_data := some { latitude := some lat, longitude := some lon } } now st ∧
    (postLocationFlat
        { device_id := some d, latitude := some lat, longitude := some lon,
          device_name := nm, body_number := bn } now st).1 =
      LocationResponse.success := by
  simp [postLocationFlat, postLocationNested, hd, hlat, hlon]

/-- Witness for C6: the `"bus-12"` report in both shapes. -/
theorem flat_and_nested_shapes_agree_witness :
    postLocationFlat
        { device_id := some "bus-12", latitude := some lat14p5, longitude := some 121,
          device_name := "tracker", body_number := "b-12" } 0 emptyState =
      postLocationNested
        { device_info := some { device_id := "bus-12", body_number := "b-12",
                                device_name := "tracker" },
          gps_data := some { latitude := some lat14p5, longitude := some 121 } } 0 emptyState ∧
    (postLocationFlat
        { device_id := some "bus-12", latitude := some lat14p5, longitude := some 121,
          device_name := "tracker", body_number := "b-12" } 0 emptyState).1 =
      LocationResponse.success :=
  flat_and_nested_shapes_agree "bus-12" "tracker" "b-12" lat14p5 121 0 emptyState
    (by decide) (by decide) (by decide)

end IPick
